import Mathlib

/-!
Verification of the scheduled-task engine of the Nova chat-bot backend
(`quark_bot/src/scheduled_prompts` and `quark_bot/src/scheduled_payments`).

The Rust source is shallowly embedded: each persisted store is an
association list, each callback branch and wizard message handler is a
pure Lean function from a world state (the two sled trees) to a new
world state plus a list of externally visible effects (user notices,
chat-message deletions, timer-job operations).  Machine integers are
modelled as `Int`/`Nat` (none of the verified paths exercise overflow),
Rust `f64` amounts as `Rat`, and fallible operations as `Option`.
-/

namespace Nova

/-- Externally visible side effects of a callback / message handler:
chat notices and messages, deletion of a chat message, and operations on
the process-local timer facility.  `execPayment` marks an actual payment
submission; `cancelJob` a cancellation of a registered timer job. -/
inductive Effect where
  | notice (text : String)
  | sendMessage (text : String)
  | deleteMessage (id : Int)
  | registerJob (handle : String)
  | cancelJob (handle : String)
  | execPayment (recipient : String) (amountSmallestUnits : Nat)
deriving Repr, DecidableEq

/-- Model of `RepeatPolicy` from `scheduled_prompts/dto.rs` (shared by the
payments engine). -/
inductive RepeatPolicy where
  | None
  | Every5m
  | Every15m
  | Every30m
  | Every45m
  | Every1h
  | Every3h
  | Every6h
  | Every12h
  | Daily
  | Weekly
  | Monthly
deriving Repr, DecidableEq

/-! ### Association-list store primitives

`sled::Tree::insert` replaces the value at a key, `remove` deletes it,
`get` looks it up.  We model a tree as an association list with at most
one binding per key (`insert` overwrites in place or appends). -/

/-- Keyed insert-or-replace, the model of `sled::Tree::insert`. -/
def alistPut {α β : Type} [DecidableEq α] : List (α × β) → α → β → List (α × β)
  | [], k, v => [(k, v)]
  | (k', v') :: rest, k, v =>
      if k' = k then (k, v) :: rest else (k', v') :: alistPut rest k v

/-- Keyed lookup, the model of `sled::Tree::get`. -/
def alistGet {α β : Type} [DecidableEq α] : List (α × β) → α → Option β
  | [], _ => none
  | (k', v') :: rest, k => if k' = k then some v' else alistGet rest k

/-- Keyed removal, the model of `sled::Tree::remove`. -/
def alistRemove {α β : Type} [DecidableEq α] (l : List (α × β)) (k : α) :
    List (α × β) :=
  l.filter (fun p => p.1 ≠ k)

theorem alistGet_alistPut_self {α β : Type} [DecidableEq α]
    (l : List (α × β)) (k : α) (v : β) : alistGet (alistPut l k v) k = some v := by
  induction l with
  | nil => simp [alistPut, alistGet]
  | cons hd tl ih =>
      by_cases h : hd.1 = k
      · simp [alistPut, alistGet, h]
      · simpa [alistPut, alistGet, h] using ih

theorem alistGet_alistPut_other {α β : Type} [DecidableEq α]
    (l : List (α × β)) (k k' : α) (v : β) (h : k' ≠ k) :
    alistGet (alistPut l k v) k' = alistGet l k' := by
  induction l with
  | nil => simp [alistPut, alistGet, Ne.symm h]
  | cons hd tl ih =>
      by_cases hk : hd.1 = k
      · subst hk
        simp [alistPut, alistGet, Ne.symm h]
      · by_cases hk' : hd.1 = k'
        · subst hk'
          simp [alistPut, alistGet, hk, h]
        · simpa [alistPut, alistGet, hk, hk'] using ih

theorem alistGet_alistRemove_self {α β : Type} [DecidableEq α]
    (l : List (α × β)) (k : α) : alistGet (alistRemove l k) k = none := by
  induction l with
  | nil => simp [alistRemove, alistGet]
  | cons hd tl ih =>
      by_cases h : hd.1 = k
      · simpa [alistRemove, alistGet, h] using ih
      · simpa [alistRemove, alistGet, h] using ih

/-! ### Scheduled payments: data model (`scheduled_payments`)

The payments `dto.rs` is not part of the provided sources; the field
sets below are reproduced from the construction sites in
`scheduled_payments/handler.rs` (`handle_schedulepayment_command`,
`finalize_and_register_payment`) and `scheduled_payments/callbacks.rs`
(`schedpay_edit`). -/

namespace Payments

/-- Model of `PendingPaymentStep`, the ordered wizard step enumeration of the
payment kind. -/
inductive PendingPaymentStep where
  | AwaitingRecipient
  | AwaitingToken
  | AwaitingAmount
  | AwaitingDate
  | AwaitingHour
  | AwaitingMinute
  | AwaitingRepeat
  | AwaitingConfirm
deriving Repr, DecidableEq

/-- Model of `PendingPaymentWizardState`: the persisted wizard session of the
payment kind, keyed by (group, creator). `amount_display` models the
Rust `f64` display amount as a rational. -/
structure PendingPaymentWizardState where
  group_id : Int
  creator_user_id : Int
  creator_username : String
  step : PendingPaymentStep
  schedule_id : Option String
  recipient_username : Option String
  recipient_address : Option String
  symbol : Option String
  token_type : Option String
  decimals : Option Nat
  amount_display : Option Rat
  date : Option String
  hour_utc : Option Nat
  minute_utc : Option Nat
  repeat_ : Option RepeatPolicy
  weekly_weeks : Option Nat
  current_bot_message_id : Option Int
  user_message_ids : List Int
deriving Repr, DecidableEq

/-- Model of `ScheduledPaymentRecord`: the durable schedule record of the
payment kind, as built in `finalize_and_register_payment`. -/
structure ScheduledPaymentRecord where
  id : String
  group_id : Int
  creator_user_id : Int
  creator_username : String
  recipient_username : Option String
  recipient_address : Option String
  symbol : Option String
  token_type : Option String
  decimals : Option Nat
  amount_smallest_units : Option Nat
  start_timestamp_utc : Option Int
  repeat_ : RepeatPolicy
  weekly_weeks : Option Nat
  active : Bool
  created_at : Int
  last_run_at : Option Int
  next_run_at : Option Int
  run_count : Nat
  locked_until : Option Int
  scheduler_job_id : Option String
  last_error : Option String
  last_attempt_status : Option String
  notify_on_success : Bool
  notify_on_failure : Bool
deriving Repr, DecidableEq

/-- The two sled trees of `ScheduledPaymentsStorage`
(`scheduled_payments` keyed by record id, `scheduled_payment_pending`
keyed by (group, user)). -/
structure PaymentsWorld where
  scheduled : List (String × ScheduledPaymentRecord)
  pending : List ((Int × Int) × PendingPaymentWizardState)
deriving Repr, DecidableEq

/-- Model of `ScheduledPaymentsStorage::put_schedule`. -/
def put_schedule (tree : List (String × ScheduledPaymentRecord))
    (rec : ScheduledPaymentRecord) : List (String × ScheduledPaymentRecord) :=
  alistPut tree rec.id rec

/-- Model of `ScheduledPaymentsStorage::get_schedule`. -/
def get_schedule (tree : List (String × ScheduledPaymentRecord))
    (id : String) : Option ScheduledPaymentRecord :=
  alistGet tree id

/-- Model of `ScheduledPaymentsStorage::list_schedules_for_group` over the
record-level view of the tree: keeps the records whose `group_id`
matches and whose `active` flag is set. -/
def list_schedules_for_group (tree : List (String × ScheduledPaymentRecord))
    (group_id : Int) : List ScheduledPaymentRecord :=
  (tree.filter (fun p => p.2.group_id = group_id ∧ p.2.active)).map Prod.snd

/-- Model of `ScheduledPaymentsStorage::put_pending`. -/
def put_pending (tree : List ((Int × Int) × PendingPaymentWizardState))
    (key : Int × Int) (st : PendingPaymentWizardState) :
    List ((Int × Int) × PendingPaymentWizardState) :=
  alistPut tree key st

/-- Model of `ScheduledPaymentsStorage::get_pending`. -/
def get_pending (tree : List ((Int × Int) × PendingPaymentWizardState))
    (key : Int × Int) : Option PendingPaymentWizardState :=
  alistGet tree key

/-- Model of `ScheduledPaymentsStorage::delete_pending`. -/
def delete_pending (tree : List ((Int × Int) × PendingPaymentWizardState))
    (key : Int × Int) : List ((Int × Int) × PendingPaymentWizardState) :=
  alistRemove tree key

/-- Model of `reset_from_step_payments` from `scheduled_payments/helpers.rs`:
clears every collected field from the given step onward. -/
def reset_from_step_payments (state : PendingPaymentWizardState)
    (step : PendingPaymentStep) : PendingPaymentWizardState :=
  match step with
  | .AwaitingRecipient =>
      { state with
        recipient_username := none, recipient_address := none,
        symbol := none, token_type := none, decimals := none,
        amount_display := none, date := none,
        hour_utc := none, minute_utc := none,
        repeat_ := none, weekly_weeks := none }
  | .AwaitingToken =>
      { state with
        symbol := none, token_type := none, decimals := none,
        amount_display := none, date := none,
        hour_utc := none, minute_utc := none,
        repeat_ := none, weekly_weeks := none }
  | .AwaitingAmount =>
      { state with
        amount_display := none, date := none,
        hour_utc := none, minute_utc := none,
        repeat_ := none, weekly_weeks := none }
  | .AwaitingDate =>
      { state with
        date := none, hour_utc := none, minute_utc := none,
        repeat_ := none, weekly_weeks := none }
  | .AwaitingHour =>
      { state with
        hour_utc := none, minute_utc := none,
        repeat_ := none, weekly_weeks := none }
  | .AwaitingMinute =>
      { state with
        minute_utc := none, repeat_ := none, weekly_weeks := none }
  | .AwaitingRepeat =>
      { state with repeat_ := none, weekly_weeks := none }
  | .AwaitingConfirm => state

/-- The predecessor relation of the payment wizard steps, as matched in
the `schedpay_back` branch of `handle_scheduled_payments_callback`. -/
def prevPaymentStep : PendingPaymentStep → Option PendingPaymentStep
  | .AwaitingConfirm => some .AwaitingRepeat
  | .AwaitingRepeat => some .AwaitingMinute
  | .AwaitingMinute => some .AwaitingHour
  | .AwaitingHour => some .AwaitingDate
  | .AwaitingDate => some .AwaitingAmount
  | .AwaitingAmount => some .AwaitingToken
  | .AwaitingToken => some .AwaitingRecipient
  | .AwaitingRecipient => none

end Payments

/-! ### String primitives

Character-list implementations of the string operations the wizard
uses (split, trim, case folding, …), so that every definition reduces
inside the kernel. -/

/-- Split a character list at every occurrence of `sep`
(`str::split` / `String::splitOn` with a one-character separator). -/
def splitChars (sep : Char) : List Char → List (List Char)
  | [] => [[]]
  | c :: rest =>
      match splitChars sep rest with
      | [] => if c = sep then [[], []] else [[c]]
      | h :: t => if c = sep then [] :: h :: t else (c :: h) :: t

/-- Split a string at every occurrence of the character `sep`. -/
def splitOnChar (sep : Char) (s : String) : List String :=
  (splitChars sep s.data).map String.mk

/-- Decimal digits to a number; `none` when empty or non-numeric
(`str::parse::<u32>` / `String.toNat?`). -/
def charsToNat? (l : List Char) : Option Nat :=
  if l ≠ [] ∧ l.all Char.isDigit then
    some (l.foldl (fun a c => a * 10 + (c.toNat - 48)) 0)
  else none

/-- Model of `String.toNat?` over the character list. -/
def strToNat? (s : String) : Option Nat := charsToNat? s.data

/-- Model of `str::trim`: strip leading and trailing whitespace. -/
def trimStr (s : String) : String :=
  ⟨((s.data.dropWhile Char.isWhitespace).reverse.dropWhile Char.isWhitespace).reverse⟩

/-- Emptiness test. -/
def strIsEmpty (s : String) : Bool := s.data = []

/-- Does the string start with the character `c`? -/
def startsWithChar (s : String) (c : Char) : Bool :=
  match s.data with
  | [] => false
  | d :: _ => d = c

/-- Drop the first character. -/
def strDropOne (s : String) : String := ⟨s.data.drop 1⟩

/-- Remove every occurrence of the character `c`
(`str::replace(c, "")`). -/
def removeChar (c : Char) (s : String) : String :=
  ⟨s.data.filter (fun d => d ≠ c)⟩

/-- ASCII uppercasing (`str::to_uppercase` on ASCII input). -/
def toUpperStr (s : String) : String := ⟨s.data.map Char.toUpper⟩

/-- Is any character alphabetic (`any(|c| c.is_ascii_alphabetic())`)? -/
def strAnyAlpha (s : String) : Bool := s.data.any Char.isAlpha

/-- Are all characters decimal digits? -/
def strAllDigits (s : String) : Bool := s.data.all Char.isDigit

/-- Character count. -/
def strLength (s : String) : Nat := s.data.length

/-! ### Parsing helpers

Models of the `chrono` / `std` parsers the wizard uses:
`NaiveDate::parse_from_str(_, "%Y-%m-%d")`,
`NaiveDateTime::parse_from_str(_, "%Y-%m-%d %H:%M")` and
`str::parse::<f64>` (restricted to plain decimal notation — the
exponent/infinity/NaN forms of the float grammar are never produced by
the wizard's numeric inputs). -/

/-- Gregorian leap-year test. -/
def isLeapYear (y : Nat) : Bool :=
  y % 4 = 0 && (y % 100 ≠ 0 || y % 400 = 0)

/-- Length of a month of the proleptic Gregorian calendar. -/
def daysInMonth (y m : Nat) : Nat :=
  if m = 2 then (if isLeapYear y then 29 else 28)
  else if m = 4 ∨ m = 6 ∨ m = 9 ∨ m = 11 then 30
  else 31

/-- Model of `NaiveDate::parse_from_str(s, "%Y-%m-%d")`: three
dash-separated decimal components forming a valid calendar date. -/
def parse_date_ymd (s : String) : Option (Nat × Nat × Nat) :=
  match splitOnChar '-' s with
  | [ys, ms, ds] =>
      match strToNat? ys, strToNat? ms, strToNat? ds with
      | some y, some m, some d =>
          if 1 ≤ m ∧ m ≤ 12 ∧ 1 ≤ d ∧ d ≤ daysInMonth y m then
            some (y, m, d)
          else none
      | _, _, _ => none
  | _ => none

/-- Model of `NaiveDateTime::parse_from_str(s, "%Y-%m-%d %H:%M")`. -/
def parse_datetime_ymd_hm (s : String) : Option (Nat × Nat × Nat × Nat × Nat) :=
  match splitOnChar ' ' s with
  | [ds, ts] =>
      match parse_date_ymd ds with
      | some (y, m, d) =>
          match splitOnChar ':' ts with
          | [hs, mins] =>
              match strToNat? hs, strToNat? mins with
              | some h, some mi =>
                  if h ≤ 23 ∧ mi ≤ 59 then some (y, m, d, h, mi) else none
              | _, _ => none
          | _ => none
      | none => none
  | _ => none

/-- Days since 1970-01-01 of a proleptic-Gregorian date
(the civil-from-days inverse used by `chrono`). -/
def daysFromCivil (y m d : Nat) : Int :=
  let yi : Int := if m ≤ 2 then (y : Int) - 1 else (y : Int)
  let era : Int := (if 0 ≤ yi then yi else yi - 399) / 400
  let yoe : Int := yi - era * 400
  let mp : Int := if 2 < m then (m : Int) - 3 else (m : Int) + 9
  let doy : Int := (153 * mp + 2) / 5 + (d : Int) - 1
  let doe : Int := yoe * 365 + yoe / 4 - yoe / 100 + doy
  era * 146097 + doe - 719468

/-- UTC epoch timestamp of a parsed `%Y-%m-%d %H:%M` datetime
(`DateTime::<Utc>::from_naive_utc_and_offset(..).timestamp()`). -/
def timestampOfYmdHm (dt : Nat × Nat × Nat × Nat × Nat) : Int :=
  let (y, m, d, h, mi) := dt
  daysFromCivil y m d * 86400 + (h : Int) * 3600 + (mi : Int) * 60

/-- Zero-padded two-digit rendering, the model of `format!("{:02}", n)`. -/
def fmt2 (n : Nat) : String :=
  if n < 10 then "0" ++ toString n else toString n

/-- Model of `str::parse::<f64>` on plain decimal notation: optional
sign, an integer part and/or a fractional part. -/
def parse_decimal (s : String) : Option Rat :=
  let core : String → Rat → Option Rat := fun t sign =>
    match splitOnChar '.' t with
    | [ip] => (strToNat? ip).map (fun n => sign * (n : Rat))
    | [ip, fp] =>
        if strIsEmpty ip ∧ strIsEmpty fp then none
        else if strAllDigits ip ∧ strAllDigits fp then
          some (sign * ((((strToNat? ip).getD 0 : Nat) : Rat) +
            (((strToNat? fp).getD 0 : Nat) : Rat) / ((10 : Rat) ^ strLength fp)))
        else none
    | _ => none
  if startsWithChar s '-' then core (strDropOne s) (-1)
  else if startsWithChar s '+' then core (strDropOne s) 1
  else core s 1

/-- Model of `f64 as u64` applied to a nonnegative product
(truncation toward zero). -/
def ratToU64 (q : Rat) : Nat := q.floor.toNat

/-- Model of `a.eq_ignore_ascii_case(b)`. -/
def eqIgnoreAsciiCase (a b : String) : Bool :=
  toUpperStr a = toUpperStr b

/-- Model of `trim_start_matches('@')`: drop every leading `@`. -/
def stripLeadingAts (s : String) : String :=
  ⟨s.toList.dropWhile (fun c => c = '@')⟩

namespace Payments

/-- Modelled from the spec: `scheduled_payments/runner.rs`
(`register_schedule`) is not among the provided sources.  Per §4.4,
`register(record)` computes the delay until `next_run_at`, schedules a
one-shot timer callback, and stores the resulting job handle on the
record; it does not alter timing, payload, or bookkeeping fields.  The
fresh handle is supplied as an argument. -/
def register_schedule (jobHandle : String) (rec0 : ScheduledPaymentRecord) :
    ScheduledPaymentRecord × List Effect :=
  ({ rec0 with scheduler_job_id := some jobHandle }, [Effect.registerJob jobHandle])

/-- Model of `finalize_and_register_payment` from `scheduled_payments/handler.rs`:
enforce the per-group cap of 50 active records, compute the first-run
timestamp from the collected date/hour/minute (falling back to `now`
when they do not parse), convert the display amount to smallest units,
build the record, persist it, register the timer, and persist the
record again with its job handle. -/
def finalize_and_register_payment (now : Int) (uuid jobHandle : String)
    (w : PaymentsWorld) (state : PendingPaymentWizardState) :
    PaymentsWorld × List Effect :=
  let active_count := (list_schedules_for_group w.scheduled state.group_id).length
  if 50 ≤ active_count then
    (w, [Effect.sendMessage "❌ You already have 50 active scheduled payments in this group. Delete or pause some before adding new ones."])
  else
    let date := state.date.getD ""
    let hour := state.hour_utc.getD 0
    let minute := state.minute_utc.getD 0
    let datetime_str := date ++ " " ++ fmt2 hour ++ ":" ++ fmt2 minute
    let first_run : Int :=
      match parse_datetime_ymd_hm datetime_str with
      | some dt => timestampOfYmdHm dt
      | none => now
    let amount_smallest_units :=
      state.amount_display.bind (fun amt =>
        state.decimals.map (fun d => ratToU64 (amt * (10 : Rat) ^ d)))
    let id := state.schedule_id.getD uuid
    let rec0 : ScheduledPaymentRecord :=
      { id := id
        group_id := state.group_id
        creator_user_id := state.creator_user_id
        creator_username := state.creator_username
        recipient_username := state.recipient_username
        recipient_address := state.recipient_address
        symbol := state.symbol
        token_type := state.token_type
        decimals := state.decimals
        amount_smallest_units := amount_smallest_units
        start_timestamp_utc := some first_run
        repeat_ := state.repeat_.getD RepeatPolicy.Weekly
        weekly_weeks := state.weekly_weeks
        active := true
        created_at := now
        last_run_at := none
        next_run_at := some first_run
        run_count := 0
        locked_until := none
        scheduler_job_id := none
        last_error := none
        last_attempt_status := none
        notify_on_success := true
        notify_on_failure := true }
    let w1 := { w with scheduled := put_schedule w.scheduled rec0 }
    let regOut := register_schedule jobHandle rec0
    let w2 := { w1 with scheduled := put_schedule w1.scheduled regOut.1 }
    (w2, regOut.2 ++ [Effect.sendMessage "✅ Scheduled payment created!"])

/-- The parsed `query.data` of `handle_scheduled_payments_callback`:
one constructor per `schedpay_*` branch that the verified claims
exercise (the edit sub-menu branches are omitted). -/
inductive PayCallback where
  | hour (h : Nat)
  | minute (m : Nat)
  | repeatSel (arg : String)
  | confirm
  | cancel
  | back
  | toggle (id : String)
  | delete (id : String)
  | runnow (id : String)
deriving Repr, DecidableEq

/-- Model of `schedpay_repeat:` argument decoding. -/
def parseRepeatArg (arg : String) : RepeatPolicy × Option Nat :=
  if arg = "1d" then (RepeatPolicy.Daily, none)
  else if arg = "1w" then (RepeatPolicy.Weekly, some 1)
  else if arg = "2w" then (RepeatPolicy.Weekly, some 2)
  else if arg = "4w" then (RepeatPolicy.Weekly, some 4)
  else (RepeatPolicy.Weekly, some 1)

/-- Chat-message deletions performed by `delete_message_safe` on the
currently displayed bot prompt. -/
def deleteCurrentMsg (st : PendingPaymentWizardState) : List Effect :=
  match st.current_bot_message_id with
  | some m => [Effect.deleteMessage m]
  | none => []

/-- Model of `handle_scheduled_payments_callback` from
`scheduled_payments/callbacks.rs`.  `isAdmin` is the outcome of the
`get_chat_administrators` membership test; `now` is `Utc::now()`;
`uuid`/`jobHandle` are the fresh identifiers drawn on confirmation;
`freshMsgId` is the id of the newly sent step message; `curMsgId` the
id of the message that carried the pressed button. -/
def handle_scheduled_payments_callback (isAdmin : Bool) (user_id chat_id : Int)
    (now : Int) (uuid jobHandle : String) (freshMsgId curMsgId : Int)
    (data : PayCallback) (w : PaymentsWorld) : PaymentsWorld × List Effect :=
  if !isAdmin then (w, [Effect.notice "❌ Admins only"])
  else
    let key : Int × Int := (chat_id, user_id)
    match data with
    | .hour h =>
        match get_pending w.pending key with
        | some st =>
            let st' := { st with step := PendingPaymentStep.AwaitingMinute,
                                 hour_utc := some h,
                                 current_bot_message_id := some freshMsgId }
            ({ w with pending := put_pending w.pending key st' }, deleteCurrentMsg st)
        | none => (w, [])
    | .minute m =>
        match get_pending w.pending key with
        | some st =>
            let st' := { st with step := PendingPaymentStep.AwaitingRepeat,
                                 minute_utc := some m,
                                 current_bot_message_id := some freshMsgId }
            ({ w with pending := put_pending w.pending key st' }, deleteCurrentMsg st)
        | none => (w, [])
    | .repeatSel arg =>
        match get_pending w.pending key with
        | some st =>
            let rw := parseRepeatArg arg
            let st' := { st with step := PendingPaymentStep.AwaitingConfirm,
                                 repeat_ := some rw.1, weekly_weeks := rw.2,
                                 current_bot_message_id := some freshMsgId }
            ({ w with pending := put_pending w.pending key st' }, deleteCurrentMsg st)
        | none => (w, [])
    | .confirm =>
        match get_pending w.pending key with
        | some st =>
            if st.creator_user_id ≠ user_id then
              (w, [Effect.notice "❌ Only the creator can confirm this payment"])
            else
              let w1 := { w with pending := delete_pending w.pending key }
              let out := finalize_and_register_payment now uuid jobHandle w1 st
              (out.1, deleteCurrentMsg st ++ out.2)
        | none => (w, [Effect.notice "ℹ️ No pending payment to confirm"])
    | .cancel =>
        match get_pending w.pending key with
        | some st =>
            if st.creator_user_id ≠ user_id then
              (w, [Effect.notice "❌ Only the creator can cancel this payment"])
            else
              ({ w with pending := delete_pending w.pending key },
               deleteCurrentMsg st ++ [Effect.notice "✅ Cancelled"])
        | none => (w, [Effect.notice "ℹ️ No pending payment to cancel"])
    | .back =>
        match get_pending w.pending key with
        | some st =>
            match prevPaymentStep st.step with
            | some prev_step =>
                let st' := { reset_from_step_payments st prev_step with
                             step := prev_step,
                             current_bot_message_id := some freshMsgId }
                ({ w with pending := put_pending w.pending key st' },
                 deleteCurrentMsg st)
            | none => (w, [Effect.notice "ℹ️ Already at first step"])
        | none => (w, [Effect.notice "ℹ️ No pending payment to navigate"])
    | .toggle id =>
        match get_schedule w.scheduled id with
        | some rec0 =>
            if rec0.creator_user_id ≠ user_id then
              (w, [Effect.notice "❌ Only the creator can toggle this payment"])
            else
              let rec' := { rec0 with active := !rec0.active }
              ({ w with scheduled := put_schedule w.scheduled rec' },
               [Effect.notice (if rec'.active then "▶️ Resumed" else "⏸ Paused")])
        | none => (w, [Effect.notice "ℹ️ Scheduled payment not found"])
    | .delete id =>
        match get_schedule w.scheduled id with
        | some rec0 =>
            if rec0.creator_user_id ≠ user_id then
              (w, [Effect.notice "❌ Only the creator can delete this payment"])
            else
              let rec' := { rec0 with active := false }
              ({ w with scheduled := put_schedule w.scheduled rec' },
               [Effect.notice "🗑 Deleted", Effect.deleteMessage curMsgId])
        | none => (w, [Effect.notice "ℹ️ Scheduled payment not found"])
    | .runnow id =>
        match get_schedule w.scheduled id with
        | some rec0 =>
            if rec0.creator_user_id ≠ user_id then
              (w, [Effect.notice "❌ Only the creator can run this payment"])
            else
              let rec' := { rec0 with next_run_at := some now }
              ({ w with scheduled := put_schedule w.scheduled rec' },
               [Effect.notice "⚡ Queued to run"])
        | none => (w, [Effect.notice "ℹ️ Scheduled payment not found"])

/-- Model of `cleanup_and_transition`: delete the user's message, all tracked
transient user messages, and the currently displayed bot prompt, and
clear the corresponding UI-bookkeeping fields. -/
def cleanup_and_transition (st : PendingPaymentWizardState) (userMsgId : Int) :
    PendingPaymentWizardState × List Effect :=
  let effs := Effect.deleteMessage userMsgId ::
    st.user_message_ids.map Effect.deleteMessage ++ deleteCurrentMsg st
  ({ st with user_message_ids := [], current_bot_message_id := none }, effs)

/-- Model of `handle_message_scheduled_payments` from
`scheduled_payments/handler.rs`: the free-form input steps of the
payment wizard.  `creds` models `auth.get_credentials` (handle →
resource account address); `panora` models
`panora.get_token_by_symbol` (symbol → (token address, decimals,
canonical symbol)); `text` is the message's text or caption; the third
component of the result is the handler's `Ok(bool)` value. -/
def handle_message_scheduled_payments (creds : String → Option String)
    (panora : String → Option (String × Nat × String))
    (freshMsgId : Int) (chat_id user_id msg_id : Int) (text : String)
    (w : PaymentsWorld) : PaymentsWorld × List Effect × Bool :=
  let pay_key : Int × Int := (chat_id, user_id)
  match get_pending w.pending pay_key with
  | none => (w, [], false)
  | some st =>
      let text_raw := trimStr text
      if strIsEmpty text_raw ∨ startsWithChar text_raw '/' then (w, [], true)
      else
        match st.step with
        | .AwaitingRecipient =>
            let uname := stripLeadingAts text_raw
            match creds uname with
            | some addr =>
                let cl := cleanup_and_transition st msg_id
                let st' := { cl.1 with
                             recipient_username := some uname,
                             recipient_address := some addr,
                             step := PendingPaymentStep.AwaitingToken,
                             current_bot_message_id := some freshMsgId }
                ({ w with pending := put_pending w.pending pay_key st' },
                 cl.2 ++ [Effect.sendMessage "💳 Send token symbol (e.g., APT, USDC, or emoji)"], true)
            | none =>
                (w, [Effect.sendMessage "❌ Unknown user. Please send a valid @username."], true)
        | .AwaitingToken =>
            let symbol_input :=
              if strAnyAlpha text_raw then toUpperStr text_raw else text_raw
            let lookup : Option (String × Nat × String) :=
              if eqIgnoreAsciiCase symbol_input "APT" ∨
                 eqIgnoreAsciiCase symbol_input "APTOS" then
                some ("0x1::aptos_coin::AptosCoin", 8, "APT")
              else panora symbol_input
            match lookup with
            | some tds =>
                let cl := cleanup_and_transition st msg_id
                let st' := { cl.1 with
                             symbol := some tds.2.2,
                             token_type := some tds.1,
                             decimals := some tds.2.1,
                             step := PendingPaymentStep.AwaitingAmount,
                             current_bot_message_id := some freshMsgId }
                ({ w with pending := put_pending w.pending pay_key st' },
                 cl.2 ++ [Effect.sendMessage "💰 Send amount (decimal)"], true)
            | none =>
                (w, [Effect.sendMessage "❌ Token not found. Try again (e.g., APT, USDC)"], true)
        | .AwaitingAmount =>
            let parsed := parse_decimal (removeChar ',' (removeChar '_' text_raw))
            match parsed with
            | some v =>
                if 0 < v then
                  let cl := cleanup_and_transition st msg_id
                  let st' := { cl.1 with
                               amount_display := some v,
                               step := PendingPaymentStep.AwaitingDate,
                               current_bot_message_id := some freshMsgId }
                  ({ w with pending := put_pending w.pending pay_key st' },
                   cl.2 ++ [Effect.sendMessage "📅 Send start date in YYYY-MM-DD (UTC)"], true)
                else
                  (w, [Effect.sendMessage "❌ Invalid amount. Please send a positive number."], true)
            | none =>
                (w, [Effect.sendMessage "❌ Invalid amount. Please send a positive number."], true)
        | .AwaitingDate =>
            if (parse_date_ymd text_raw).isSome then
              let cl := cleanup_and_transition st msg_id
              let st' := { cl.1 with
                           date := some text_raw,
                           step := PendingPaymentStep.AwaitingHour,
                           current_bot_message_id := some freshMsgId }
              ({ w with pending := put_pending w.pending pay_key st' },
               cl.2 ++ [Effect.sendMessage "⏰ Select hour (UTC)"], true)
            else
              (w, [Effect.sendMessage "❌ Invalid date. Use YYYY-MM-DD."], true)
        | .AwaitingConfirm =>
            if eqIgnoreAsciiCase text_raw "skip" then
              (w, [Effect.sendMessage "✔️ Keeping existing values. Use buttons to confirm."], true)
            else (w, [], false)
        | _ => (w, [], false)

end Payments

/-! ### Scheduled prompts: data model (`scheduled_prompts`) -/

namespace Prompts

/-- Model of `PendingStep` from `scheduled_prompts/dto.rs`. -/
inductive PendingStep where
  | AwaitingPrompt
  | AwaitingImage
  | AwaitingHour
  | AwaitingMinute
  | AwaitingRepeat
  | AwaitingConfirm
deriving Repr, DecidableEq

/-- Model of `PendingWizardState` of the prompt kind, with the UI-bookkeeping
fields used by `scheduled_prompts/handler.rs` and `callbacks.rs`. -/
structure PendingWizardState where
  group_id : Int
  creator_user_id : Int
  creator_username : String
  step : PendingStep
  prompt : Option String
  image_url : Option String
  hour_utc : Option Nat
  minute_utc : Option Nat
  repeat_ : Option RepeatPolicy
  thread_id : Option Int
  current_bot_message_id : Option Int
  user_message_ids : List Int
deriving Repr, DecidableEq

/-- Model of `ScheduledPromptRecord` from `scheduled_prompts/dto.rs`. -/
structure ScheduledPromptRecord where
  id : String
  group_id : Int
  creator_user_id : Int
  creator_username : String
  prompt : String
  image_url : Option String
  start_hour_utc : Nat
  start_minute_utc : Nat
  repeat_ : RepeatPolicy
  active : Bool
  created_at : Int
  last_run_at : Option Int
  next_run_at : Option Int
  run_count : Nat
  locked_until : Option Int
  scheduler_job_id : Option String
  conversation_response_id : Option String
  thread_id : Option Int
deriving Repr, DecidableEq

/-- The two sled trees of `ScheduledStorage` (`scheduled_prompts` keyed
by record id, `scheduled_prompt_pending` keyed by (group, user)). -/
structure PromptsWorld where
  scheduled : List (String × ScheduledPromptRecord)
  pending : List ((Int × Int) × PendingWizardState)
deriving Repr, DecidableEq

/-- Model of `ScheduledStorage::put_schedule`. -/
def put_schedule (tree : List (String × ScheduledPromptRecord))
    (rec0 : ScheduledPromptRecord) : List (String × ScheduledPromptRecord) :=
  alistPut tree rec0.id rec0

/-- Model of `ScheduledStorage::get_schedule`. -/
def get_schedule (tree : List (String × ScheduledPromptRecord))
    (id : String) : Option ScheduledPromptRecord :=
  alistGet tree id

/-- Model of `ScheduledStorage::list_schedules_for_group` over the record-level
view of the tree. -/
def list_schedules_for_group (tree : List (String × ScheduledPromptRecord))
    (group_id : Int) : List ScheduledPromptRecord :=
  (tree.filter (fun p => p.2.group_id = group_id ∧ p.2.active)).map Prod.snd

/-- Model of `ScheduledStorage::put_pending`. -/
def put_pending (tree : List ((Int × Int) × PendingWizardState))
    (key : Int × Int) (st : PendingWizardState) :
    List ((Int × Int) × PendingWizardState) :=
  alistPut tree key st

/-- Model of `ScheduledStorage::get_pending`. -/
def get_pending (tree : List ((Int × Int) × PendingWizardState))
    (key : Int × Int) : Option PendingWizardState :=
  alistGet tree key

/-- Model of `ScheduledStorage::delete_pending`. -/
def delete_pending (tree : List ((Int × Int) × PendingWizardState))
    (key : Int × Int) : List ((Int × Int) × PendingWizardState) :=
  alistRemove tree key

/-- Model of `reset_from_step_prompts` from `scheduled_prompts/helpers.rs`. -/
def reset_from_step_prompts (state : PendingWizardState) (step : PendingStep) :
    PendingWizardState :=
  match step with
  | .AwaitingPrompt =>
      { state with prompt := none, image_url := none,
                   hour_utc := none, minute_utc := none, repeat_ := none }
  | .AwaitingImage =>
      { state with image_url := none,
                   hour_utc := none, minute_utc := none, repeat_ := none }
  | .AwaitingHour =>
      { state with hour_utc := none, minute_utc := none, repeat_ := none }
  | .AwaitingMinute =>
      { state with minute_utc := none, repeat_ := none }
  | .AwaitingRepeat =>
      { state with repeat_ := none }
  | .AwaitingConfirm => state

/-- The predecessor relation of the prompt wizard steps, as matched in
the `sched_back` branch of `handle_scheduled_prompts_callback`. -/
def prevPromptStep : PendingStep → Option PendingStep
  | .AwaitingConfirm => some .AwaitingRepeat
  | .AwaitingRepeat => some .AwaitingMinute
  | .AwaitingMinute => some .AwaitingHour
  | .AwaitingHour => some .AwaitingImage
  | .AwaitingImage => some .AwaitingPrompt
  | .AwaitingPrompt => none

/-- Modelled from the spec: `scheduled_prompts/runner.rs`
(`register_schedule`) is not among the provided sources.  Per §4.4,
`register(record)` schedules a one-shot timer for the record's next
occurrence and stores the resulting job handle on the record; it does
not alter payload fields.  The fresh handle is supplied as an
argument. -/
def register_schedule (jobHandle : String) (rec0 : ScheduledPromptRecord) :
    ScheduledPromptRecord × List Effect :=
  ({ rec0 with scheduler_job_id := some jobHandle }, [Effect.registerJob jobHandle])

/-- Model of `finalize_and_register` from `scheduled_prompts/handler.rs`:
enforce the per-group cap of 10 active records, build the record from
the wizard state, persist it, register the timer, and persist again
with the job handle. -/
def finalize_and_register (now : Int) (uuid jobHandle : String)
    (w : PromptsWorld) (state : PendingWizardState) :
    PromptsWorld × List Effect :=
  let active_count := (list_schedules_for_group w.scheduled state.group_id).length
  if 10 ≤ active_count then
    (w, [Effect.sendMessage "❌ You already have 10 active scheduled prompts in this group.\n\nPlease cancel one with /listscheduled before adding a new schedule."])
  else
    let rec0 : ScheduledPromptRecord :=
      { id := uuid
        group_id := state.group_id
        creator_user_id := state.creator_user_id
        creator_username := state.creator_username
        prompt := state.prompt.getD ""
        image_url := state.image_url
        start_hour_utc := state.hour_utc.getD 0
        start_minute_utc := state.minute_utc.getD 0
        repeat_ := state.repeat_.getD RepeatPolicy.None
        active := true
        created_at := now
        last_run_at := none
        next_run_at := none
        run_count := 0
        locked_until := none
        scheduler_job_id := none
        conversation_response_id := none
        thread_id := state.thread_id }
    let w1 := { w with scheduled := put_schedule w.scheduled rec0 }
    let regOut := register_schedule jobHandle rec0
    let w2 := { w1 with scheduled := put_schedule w1.scheduled regOut.1 }
    (w2, regOut.2 ++ [Effect.sendMessage "✅ Scheduled created!"])

/-- The parsed `query.data` of `handle_scheduled_prompts_callback`:
one constructor per `sched_*` branch (`cancelId` is the
`sched_cancel:<id>` per-record delete action; `cancel` the wizard
cancel). -/
inductive PromptCallback where
  | back
  | cancel
  | skipImage
  | hour (h : Nat)
  | minute (m : Nat)
  | repeatSel (arg : String)
  | confirm
  | cancelId (id : String)
  | close (id : String)
deriving Repr, DecidableEq

/-- Model of `sched_repeat:` argument decoding. -/
def parsePromptRepeatArg (arg : String) : RepeatPolicy :=
  if arg = "none" then RepeatPolicy.None
  else if arg = "5m" then RepeatPolicy.Every5m
  else if arg = "15m" then RepeatPolicy.Every15m
  else if arg = "30m" then RepeatPolicy.Every30m
  else if arg = "45m" then RepeatPolicy.Every45m
  else if arg = "1h" then RepeatPolicy.Every1h
  else if arg = "3h" then RepeatPolicy.Every3h
  else if arg = "6h" then RepeatPolicy.Every6h
  else if arg = "12h" then RepeatPolicy.Every12h
  else if arg = "1d" then RepeatPolicy.Daily
  else if arg = "1w" then RepeatPolicy.Weekly
  else if arg = "1mo" then RepeatPolicy.Monthly
  else RepeatPolicy.Every1h

/-- Deletion of the currently displayed bot prompt. -/
def deleteCurrentMsg (st : PendingWizardState) : List Effect :=
  match st.current_bot_message_id with
  | some m => [Effect.deleteMessage m]
  | none => []

/-- Model of `handle_scheduled_prompts_callback` from
`scheduled_prompts/callbacks.rs`.  Parameters as in the payments
dispatcher. -/
def handle_scheduled_prompts_callback (isAdmin : Bool) (user_id chat_id : Int)
    (now : Int) (uuid jobHandle : String) (freshMsgId curMsgId : Int)
    (data : PromptCallback) (w : PromptsWorld) : PromptsWorld × List Effect :=
  if !isAdmin then (w, [Effect.notice "❌ Admins only"])
  else
    let key : Int × Int := (chat_id, user_id)
    match data with
    | .back =>
        match get_pending w.pending key with
        | some st =>
            match prevPromptStep st.step with
            | some prev_step =>
                let st' := { reset_from_step_prompts st prev_step with
                             step := prev_step,
                             current_bot_message_id := some freshMsgId }
                ({ w with pending := put_pending w.pending key st' },
                 deleteCurrentMsg st)
            | none => (w, [Effect.notice "ℹ️ Already at first step"])
        | none => (w, [Effect.notice "ℹ️ No pending schedule to navigate"])
    | .cancel =>
        match get_pending w.pending key with
        | some st =>
            ({ w with pending := delete_pending w.pending key },
             deleteCurrentMsg st ++ [Effect.notice "✅ Cancelled"])
        | none => (w, [Effect.notice "ℹ️ No pending schedule to cancel"])
    | .skipImage =>
        match get_pending w.pending key with
        | some st =>
            let st' := { st with step := PendingStep.AwaitingHour,
                                 image_url := none,
                                 current_bot_message_id := some freshMsgId }
            ({ w with pending := put_pending w.pending key st' }, deleteCurrentMsg st)
        | none => (w, [])
    | .hour h =>
        match get_pending w.pending key with
        | some st =>
            let st' := { st with step := PendingStep.AwaitingMinute,
                                 hour_utc := some h,
                                 current_bot_message_id := some freshMsgId }
            ({ w with pending := put_pending w.pending key st' }, deleteCurrentMsg st)
        | none => (w, [])
    | .minute m =>
        match get_pending w.pending key with
        | some st =>
            let st' := { st with step := PendingStep.AwaitingRepeat,
                                 minute_utc := some m,
                                 current_bot_message_id := some freshMsgId }
            ({ w with pending := put_pending w.pending key st' }, deleteCurrentMsg st)
        | none => (w, [])
    | .repeatSel arg =>
        match get_pending w.pending key with
        | some st =>
            let st' := { st with step := PendingStep.AwaitingConfirm,
                                 repeat_ := some (parsePromptRepeatArg arg),
                                 current_bot_message_id := some freshMsgId }
            ({ w with pending := put_pending w.pending key st' }, deleteCurrentMsg st)
        | none => (w, [])
    | .confirm =>
        match get_pending w.pending key with
        | some st =>
            let w1 := { w with pending := delete_pending w.pending key }
            let out := finalize_and_register now uuid jobHandle w1 st
            (out.1, deleteCurrentMsg st ++ out.2)
        | none => (w, [])
    | .cancelId id =>
        match get_schedule w.scheduled id with
        | some rec0 =>
            if rec0.group_id ≠ chat_id then
              (w, [Effect.notice "❌ Wrong group"])
            else
              let rec' := { rec0 with active := false }
              ({ w with scheduled := put_schedule w.scheduled rec' },
               [Effect.notice "✅ Cancelled", Effect.deleteMessage curMsgId])
        | none => (w, [])
    | .close _ => (w, [Effect.deleteMessage curMsgId])

end Prompts

/-! ### Byte-level store enumeration

`list_schedules_for_group` in both storage modules iterates the raw
sled tree and deserializes every value; a value that fails to decode is
logged and skipped.  The serialization format is abstracted as a
decoding function over an arbitrary type of stored bytes. -/

namespace PaymentsStore

/-- Model of `ScheduledPaymentsStorage::list_schedules_for_group` from
`scheduled_payments/storage.rs`, over raw stored values: decode each
entry with `serde_json::from_slice` (abstracted as `decode`), keep the
active records of the group, and skip (log) entries that fail to
decode. -/
def list_schedules_for_group {β : Type} (decode : β → Option Payments.ScheduledPaymentRecord) :
    List β → Int → List Payments.ScheduledPaymentRecord
  | [], _ => []
  | b :: rest, group_id =>
      match decode b with
      | some rec0 =>
          if rec0.group_id = group_id ∧ rec0.active then
            rec0 :: list_schedules_for_group decode rest group_id
          else
            list_schedules_for_group decode rest group_id
      | none => list_schedules_for_group decode rest group_id

end PaymentsStore

namespace PromptsStore

/-- Model of `ScheduledStorage::list_schedules_for_group` from
`scheduled_prompts/storage.rs`, over raw stored values: try the current
bincode format (`decodeNew`), fall back to the legacy format
(`decodeLegacy`) followed by `migrate_legacy_scheduled_prompt`
(migrated records are also written back via `put_schedule` — returned
here as the second component), and skip entries that decode in neither
format.  The first component is the returned `Vec`. -/
def list_schedules_for_group {β L : Type}
    (decodeNew : β → Option Prompts.ScheduledPromptRecord)
    (decodeLegacy : β → Option L) (migrate : L → Prompts.ScheduledPromptRecord) :
    List β → Int → List Prompts.ScheduledPromptRecord × List Prompts.ScheduledPromptRecord
  | [], _ => ([], [])
  | b :: rest, group_id =>
      let out := list_schedules_for_group decodeNew decodeLegacy migrate rest group_id
      match decodeNew b with
      | some rec0 =>
          if rec0.group_id = group_id ∧ rec0.active then
            (rec0 :: out.1, out.2)
          else out
      | none =>
          match decodeLegacy b with
          | some legacy =>
              let migrated := migrate legacy
              if migrated.group_id = group_id ∧ migrated.active then
                (migrated :: out.1, migrated :: out.2)
              else (out.1, migrated :: out.2)
          | none => out

/-- The combined two-format decoder: current format first, then the
legacy format followed by migration. -/
def combinedDecode {β L : Type}
    (decodeNew : β → Option Prompts.ScheduledPromptRecord)
    (decodeLegacy : β → Option L) (migrate : L → Prompts.ScheduledPromptRecord)
    (b : β) : Option Prompts.ScheduledPromptRecord :=
  match decodeNew b with
  | some rec0 => some rec0
  | none => (decodeLegacy b).map migrate

end PromptsStore

/-! ## Theorems -/

theorem paymentsStore_list_eq_filter {β : Type}
    (decode : β → Option Payments.ScheduledPaymentRecord)
    (entries : List β) (gid : Int) :
    PaymentsStore.list_schedules_for_group decode entries gid =
      (entries.filterMap decode).filter
        (fun r => r.group_id = gid ∧ r.active) := by
  induction entries with
  | nil => simp [PaymentsStore.list_schedules_for_group]
  | cons b rest ih =>
      cases h : decode b with
      | none =>
          simp [PaymentsStore.list_schedules_for_group, h, ih]
      | some r =>
          by_cases hc : r.group_id = gid ∧ r.active
          · simp [PaymentsStore.list_schedules_for_group, h, hc, ih]
          · simp [PaymentsStore.list_schedules_for_group, h, hc, ih]

theorem promptsStore_list_eq_filter {β L : Type}
    (decodeNew : β → Option Prompts.ScheduledPromptRecord)
    (decodeLegacy : β → Option L) (migrate : L → Prompts.ScheduledPromptRecord)
    (entries : List β) (gid : Int) :
    (PromptsStore.list_schedules_for_group decodeNew decodeLegacy migrate entries gid).1 =
      (entries.filterMap (PromptsStore.combinedDecode decodeNew decodeLegacy migrate)).filter
        (fun r => r.group_id = gid ∧ r.active) := by
  induction entries with
  | nil => simp [PromptsStore.list_schedules_for_group]
  | cons b rest ih =>
      cases h : decodeNew b with
      | some r =>
          by_cases hc : r.group_id = gid ∧ r.active
          · simp [PromptsStore.list_schedules_for_group, PromptsStore.combinedDecode, h, hc, ih]
          · simp [PromptsStore.list_schedules_for_group, PromptsStore.combinedDecode, h, hc, ih]
      | none =>
          cases hl : decodeLegacy b with
          | none =>
              simp [PromptsStore.list_schedules_for_group, PromptsStore.combinedDecode, h, hl, ih]
          | some legacy =>
              by_cases hc : (migrate legacy).group_id = gid ∧ (migrate legacy).active
              · simp [PromptsStore.list_schedules_for_group, PromptsStore.combinedDecode, h, hl, hc, ih]
              · simp [PromptsStore.list_schedules_for_group, PromptsStore.combinedDecode, h, hl, hc, ih]

/-- C7: enumerating a group's schedule records skips any stored entry
whose bytes fail to deserialize and still returns every decodable
record with matching `group_id` and `active = true`: for both storage
modules, the returned list equals the filter of the decodable entries,
for every decoder — so a corrupt record never aborts the enumeration,
in either engine. -/
theorem C7_list_schedules_skips_corrupt_returns_rest :
    (∀ (β : Type) (decode : β → Option Payments.ScheduledPaymentRecord)
        (entries : List β) (gid : Int),
      PaymentsStore.list_schedules_for_group decode entries gid =
        (entries.filterMap decode).filter
          (fun r => r.group_id = gid ∧ r.active)) ∧
    (∀ (β L : Type) (decodeNew : β → Option Prompts.ScheduledPromptRecord)
        (decodeLegacy : β → Option L) (migrate : L → Prompts.ScheduledPromptRecord)
        (entries : List β) (gid : Int),
      (PromptsStore.list_schedules_for_group decodeNew decodeLegacy migrate entries gid).1 =
        (entries.filterMap (PromptsStore.combinedDecode decodeNew decodeLegacy migrate)).filter
          (fun r => r.group_id = gid ∧ r.active)) :=
  ⟨fun _ decode entries gid => paymentsStore_list_eq_filter decode entries gid,
   fun _ _ dn dl mg entries gid => promptsStore_list_eq_filter dn dl mg entries gid⟩

/-- C2: once a group's count of active schedule records of a kind has
reached the kind's ceiling (10 for message-type, 50 for payment-type),
confirming the wizard sends a rejection message and persists nothing
(the whole world is unchanged); and only records with `active = true`
ever count toward the ceiling, since the counting enumeration returns
active records only. -/
theorem C2_quota_rejection :
    (∀ (now : Int) (uuid jobHandle : String) (w : Prompts.PromptsWorld)
        (st : Prompts.PendingWizardState),
      10 ≤ (Prompts.list_schedules_for_group w.scheduled st.group_id).length →
      (Prompts.finalize_and_register now uuid jobHandle w st).1 = w ∧
      (Prompts.finalize_and_register now uuid jobHandle w st).2 =
        [Effect.sendMessage "❌ You already have 10 active scheduled prompts in this group.\n\nPlease cancel one with /listscheduled before adding a new schedule."]) ∧
    (∀ (now : Int) (uuid jobHandle : String) (w : Payments.PaymentsWorld)
        (st : Payments.PendingPaymentWizardState),
      50 ≤ (Payments.list_schedules_for_group w.scheduled st.group_id).length →
      (Payments.finalize_and_register_payment now uuid jobHandle w st).1 = w ∧
      (Payments.finalize_and_register_payment now uuid jobHandle w st).2 =
        [Effect.sendMessage "❌ You already have 50 active scheduled payments in this group. Delete or pause some before adding new ones."]) ∧
    (∀ (tree : List (String × Prompts.ScheduledPromptRecord)) (gid : Int)
        (r : Prompts.ScheduledPromptRecord),
      r ∈ Prompts.list_schedules_for_group tree gid → r.active = true) ∧
    (∀ (tree : List (String × Payments.ScheduledPaymentRecord)) (gid : Int)
        (r : Payments.ScheduledPaymentRecord),
      r ∈ Payments.list_schedules_for_group tree gid → r.active = true) := by
  refine ⟨?_, ?_, ?_, ?_⟩
  · intro now uuid jobHandle w st h
    constructor <;> simp [Prompts.finalize_and_register, h]
  · intro now uuid jobHandle w st h
    constructor <;> simp [Payments.finalize_and_register_payment, h]
  · intro tree gid r hr
    simp only [Prompts.list_schedules_for_group, List.mem_map, List.mem_filter] at hr
    obtain ⟨p, ⟨_, hp⟩, rfl⟩ := hr
    simpa using (of_decide_eq_true hp).2
  · intro tree gid r hr
    simp only [Payments.list_schedules_for_group, List.mem_map, List.mem_filter] at hr
    obtain ⟨p, ⟨_, hp⟩, rfl⟩ := hr
    simpa using (of_decide_eq_true hp).2

/-- A group-7 active message-type record, distinguished by its id. -/
def sampleQuotaPromptRec (i : Nat) : Prompts.ScheduledPromptRecord :=
  { id := toString i, group_id := 7, creator_user_id := 1,
    creator_username := "alice", prompt := "p", image_url := none,
    start_hour_utc := 0, start_minute_utc := 0,
    repeat_ := RepeatPolicy.Daily, active := true, created_at := 0,
    last_run_at := none, next_run_at := none, run_count := 0,
    locked_until := none, scheduler_job_id := none,
    conversation_response_id := none, thread_id := none }

/-- A prompts world holding exactly 10 active group-7 records. -/
def quotaPromptsWorld : Prompts.PromptsWorld :=
  ⟨(List.range 10).map (fun i => (toString i, sampleQuotaPromptRec i)), []⟩

/-- A completed group-7 message-type wizard state. -/
def quotaPromptState : Prompts.PendingWizardState :=
  { group_id := 7, creator_user_id := 1, creator_username := "alice",
    step := Prompts.PendingStep.AwaitingConfirm, prompt := some "p",
    image_url := none, hour_utc := some 8, minute_utc := some 30,
    repeat_ := some RepeatPolicy.Daily, thread_id := none,
    current_bot_message_id := none, user_message_ids := [] }

/-- A group-9 active payment-type record, distinguished by its id. -/
def sampleQuotaPaymentRec (i : Nat) : Payments.ScheduledPaymentRecord :=
  { id := toString i, group_id := 9, creator_user_id := 1,
    creator_username := "alice", recipient_username := some "bob",
    recipient_address := some "0xb0b", symbol := some "APT",
    token_type := some "0x1::aptos_coin::AptosCoin", decimals := some 8,
    amount_smallest_units := some 100000000,
    start_timestamp_utc := some 0, repeat_ := RepeatPolicy.Weekly,
    weekly_weeks := some 1, active := true, created_at := 0,
    last_run_at := none, next_run_at := some 0, run_count := 0,
    locked_until := none, scheduler_job_id := none, last_error := none,
    last_attempt_status := none, notify_on_success := true,
    notify_on_failure := true }

/-- A payments world holding exactly 50 active group-9 records. -/
def quotaPaymentsWorld : Payments.PaymentsWorld :=
  ⟨(List.range 50).map (fun i => (toString i, sampleQuotaPaymentRec i)), []⟩

/-- A completed group-9 payment-type wizard state. -/
def quotaPaymentState : Payments.PendingPaymentWizardState :=
  { group_id := 9, creator_user_id := 1, creator_username := "alice",
    step := Payments.PendingPaymentStep.AwaitingConfirm,
    schedule_id := none, recipient_username := some "bob",
    recipient_address := some "0xb0b", symbol := some "APT",
    token_type := some "0x1::aptos_coin::AptosCoin", decimals := some 8,
    amount_display := some 1, date := some "2024-06-01",
    hour_utc := some 8, minute_utc := some 30,
    repeat_ := some RepeatPolicy.Weekly, weekly_weeks := some 1,
    current_bot_message_id := none, user_message_ids := [] }

/-- Witness for C2: a group at the message-type ceiling of 10 and a
group at the payment-type ceiling of 50 both get their confirmation
rejected with no change to either store. -/
theorem C2_quota_rejection_witness :
    (10 ≤ (Prompts.list_schedules_for_group quotaPromptsWorld.scheduled 7).length ∧
      (Prompts.finalize_and_register 0 "u" "j" quotaPromptsWorld quotaPromptState).1 =
        quotaPromptsWorld) ∧
    (50 ≤ (Payments.list_schedules_for_group quotaPaymentsWorld.scheduled 9).length ∧
      (Payments.finalize_and_register_payment 0 "u" "j" quotaPaymentsWorld quotaPaymentState).1 =
        quotaPaymentsWorld) :=
  ⟨⟨by decide,
    (C2_quota_rejection.1 0 "u" "j" quotaPromptsWorld quotaPromptState (by decide)).1⟩,
   ⟨by decide,
    (C2_quota_rejection.2.1 0 "u" "j" quotaPaymentsWorld quotaPaymentState (by decide)).1⟩⟩

/-- C3: pressing Cancel at any wizard step (in either engine, whatever
the session's current `step`) deletes the PendingWizardState stored
under the (group, user) key and leaves the schedule tree untouched —
no record is created or mutated.  For the payment engine the invoker
must be the session's creator (the dispatcher rejects anyone else),
which is always the case for a session stored under their own key. -/
theorem C3_cancel_deletes_pending_only :
    (∀ (uid cid now fm cm : Int) (uuid jh : String)
        (w : Prompts.PromptsWorld) (st : Prompts.PendingWizardState),
      Prompts.get_pending w.pending (cid, uid) = some st →
      Prompts.get_pending
        (Prompts.handle_scheduled_prompts_callback true uid cid now uuid jh fm cm
          Prompts.PromptCallback.cancel w).1.pending (cid, uid) = none ∧
      (Prompts.handle_scheduled_prompts_callback true uid cid now uuid jh fm cm
          Prompts.PromptCallback.cancel w).1.scheduled = w.scheduled) ∧
    (∀ (uid cid now fm cm : Int) (uuid jh : String)
        (w : Payments.PaymentsWorld) (st : Payments.PendingPaymentWizardState),
      Payments.get_pending w.pending (cid, uid) = some st →
      st.creator_user_id = uid →
      Payments.get_pending
        (Payments.handle_scheduled_payments_callback true uid cid now uuid jh fm cm
          Payments.PayCallback.cancel w).1.pending (cid, uid) = none ∧
      (Payments.handle_scheduled_payments_callback true uid cid now uuid jh fm cm
          Payments.PayCallback.cancel w).1.scheduled = w.scheduled) := by
  constructor
  · intro uid cid now fm cm uuid jh w st h
    simp only [Prompts.get_pending] at h
    constructor
    · simp [Prompts.handle_scheduled_prompts_callback, h, Prompts.delete_pending,
        Prompts.get_pending, alistGet_alistRemove_self]
    · simp [Prompts.handle_scheduled_prompts_callback, Prompts.get_pending, h]
  · intro uid cid now fm cm uuid jh w st h hc
    simp only [Payments.get_pending] at h
    constructor
    · simp [Payments.handle_scheduled_payments_callback, h, hc,
        Payments.delete_pending, Payments.get_pending, alistGet_alistRemove_self]
    · simp [Payments.handle_scheduled_payments_callback, Payments.get_pending, h, hc]

/-- A mid-wizard prompt session of user 1 in group 100. -/
def cancelPromptState : Prompts.PendingWizardState :=
  { group_id := 100, creator_user_id := 1, creator_username := "alice",
    step := Prompts.PendingStep.AwaitingHour, prompt := some "p",
    image_url := none, hour_utc := none, minute_utc := none,
    repeat_ := none, thread_id := none,
    current_bot_message_id := some 55, user_message_ids := [] }

/-- A prompts world with one schedule record and the above session. -/
def cancelPromptsWorld : Prompts.PromptsWorld :=
  ⟨[("r1", sampleQuotaPromptRec 0)], [((100, 1), cancelPromptState)]⟩

/-- A mid-wizard payment session of user 1 in group 100. -/
def cancelPaymentState : Payments.PendingPaymentWizardState :=
  { quotaPaymentState with
    group_id := 100
    step := Payments.PendingPaymentStep.AwaitingDate
    date := none }

/-- A payments world with one schedule record and the above session. -/
def cancelPaymentsWorld : Payments.PaymentsWorld :=
  ⟨[("p1", sampleQuotaPaymentRec 0)], [((100, 1), cancelPaymentState)]⟩

/-- Witness for C3: user 1 cancels mid-wizard in both engines; the
pending session disappears and the schedule tree is untouched. -/
theorem C3_cancel_deletes_pending_only_witness :
    (Prompts.get_pending cancelPromptsWorld.pending (100, 1) = some cancelPromptState ∧
      Prompts.get_pending
        (Prompts.handle_scheduled_prompts_callback true 1 100 0 "u" "j" 5 6
          Prompts.PromptCallback.cancel cancelPromptsWorld).1.pending (100, 1) = none) ∧
    (Payments.get_pending cancelPaymentsWorld.pending (100, 1) = some cancelPaymentState ∧
      Payments.get_pending
        (Payments.handle_scheduled_payments_callback true 1 100 0 "u" "j" 5 6
          Payments.PayCallback.cancel cancelPaymentsWorld).1.pending (100, 1) = none) :=
  ⟨⟨by decide,
    (C3_cancel_deletes_pending_only.1 1 100 0 5 6 "u" "j" cancelPromptsWorld
      cancelPromptState (by decide)).1⟩,
   ⟨by decide,
    (C3_cancel_deletes_pending_only.2 1 100 0 5 6 "u" "j" cancelPaymentsWorld
      cancelPaymentState (by decide) (by decide)).1⟩⟩

/-- C10: in both confirm callbacks the PendingWizardState is deleted
before `finalize` runs its quota check, so a confirmation rejected for
exceeding the active-record ceiling leaves neither a pending session
nor a new schedule record: the collected fields are discarded. -/
theorem C10_confirm_discards_pending_on_quota_rejection :
    (∀ (uid cid now fm cm : Int) (uuid jh : String)
        (w : Prompts.PromptsWorld) (st : Prompts.PendingWizardState),
      Prompts.get_pending w.pending (cid, uid) = some st →
      10 ≤ (Prompts.list_schedules_for_group w.scheduled st.group_id).length →
      Prompts.get_pending
        (Prompts.handle_scheduled_prompts_callback true uid cid now uuid jh fm cm
          Prompts.PromptCallback.confirm w).1.pending (cid, uid) = none ∧
      (Prompts.handle_scheduled_prompts_callback true uid cid now uuid jh fm cm
          Prompts.PromptCallback.confirm w).1.scheduled = w.scheduled) ∧
    (∀ (uid cid now fm cm : Int) (uuid jh : String)
        (w : Payments.PaymentsWorld) (st : Payments.PendingPaymentWizardState),
      Payments.get_pending w.pending (cid, uid) = some st →
      st.creator_user_id = uid →
      50 ≤ (Payments.list_schedules_for_group w.scheduled st.group_id).length →
      Payments.get_pending
        (Payments.handle_scheduled_payments_callback true uid cid now uuid jh fm cm
          Payments.PayCallback.confirm w).1.pending (cid, uid) = none ∧
      (Payments.handle_scheduled_payments_callback true uid cid now uuid jh fm cm
          Payments.PayCallback.confirm w).1.scheduled = w.scheduled) := by
  constructor
  · intro uid cid now fm cm uuid jh w st h hq
    simp only [Prompts.get_pending] at h
    constructor
    · simp [Prompts.handle_scheduled_prompts_callback, Prompts.get_pending, h,
        Prompts.finalize_and_register, hq, Prompts.delete_pending,
        alistGet_alistRemove_self]
    · simp [Prompts.handle_scheduled_prompts_callback, Prompts.get_pending, h,
        Prompts.finalize_and_register, hq]
  · intro uid cid now fm cm uuid jh w st h hc hq
    simp only [Payments.get_pending] at h
    constructor
    · simp [Payments.handle_scheduled_payments_callback, Payments.get_pending, h, hc,
        Payments.finalize_and_register_payment, hq, Payments.delete_pending,
        alistGet_alistRemove_self]
    · simp [Payments.handle_scheduled_payments_callback, Payments.get_pending, h, hc,
        Payments.finalize_and_register_payment, hq]

/-- The quota-saturated prompts world with a pending session of user 1
in group 7. -/
def confirmQuotaPromptsWorld : Prompts.PromptsWorld :=
  ⟨quotaPromptsWorld.scheduled, [((7, 1), quotaPromptState)]⟩

/-- The quota-saturated payments world with a pending session of user 1
in group 9. -/
def confirmQuotaPaymentsWorld : Payments.PaymentsWorld :=
  ⟨quotaPaymentsWorld.scheduled, [((9, 1), quotaPaymentState)]⟩

/-- Witness for C10: confirming against a full group discards the
pending session in both engines and persists nothing. -/
theorem C10_confirm_discards_pending_on_quota_rejection_witness :
    (Prompts.get_pending confirmQuotaPromptsWorld.pending (7, 1) = some quotaPromptState ∧
      Prompts.get_pending
        (Prompts.handle_scheduled_prompts_callback true 1 7 0 "u" "j" 5 6
          Prompts.PromptCallback.confirm confirmQuotaPromptsWorld).1.pending (7, 1) = none) ∧
    (Payments.get_pending confirmQuotaPaymentsWorld.pending (9, 1) = some quotaPaymentState ∧
      Payments.get_pending
        (Payments.handle_scheduled_payments_callback true 1 9 0 "u" "j" 5 6
          Payments.PayCallback.confirm confirmQuotaPaymentsWorld).1.pending (9, 1) = none) :=
  ⟨⟨by decide,
    (C10_confirm_discards_pending_on_quota_rejection.1 1 7 0 5 6 "u" "j"
      confirmQuotaPromptsWorld quotaPromptState (by decide) (by decide)).1⟩,
   ⟨by decide,
    (C10_confirm_discards_pending_on_quota_rejection.2 1 9 0 5 6 "u" "j"
      confirmQuotaPaymentsWorld quotaPaymentState (by decide) (by decide) (by decide)).1⟩⟩

/-- C8: the manual run-now action, invoked by the record's creator,
replaces the stored record by the same record with `next_run_at` set to
the current time — every other field (`active`, `locked_until`,
`run_count`, `repeat`, and all payment fields) is untouched, the
pending tree is untouched, and the only effect is the confirmation
notice: no payment is executed by the callback itself. -/
theorem C8_runnow_sets_next_run_at_only :
    ∀ (uid cid now fm cm : Int) (uuid jh id : String)
      (w : Payments.PaymentsWorld) (rec0 : Payments.ScheduledPaymentRecord),
      Payments.get_schedule w.scheduled id = some rec0 →
      rec0.id = id →
      rec0.creator_user_id = uid →
      (Payments.handle_scheduled_payments_callback true uid cid now uuid jh fm cm
          (Payments.PayCallback.runnow id) w).1.scheduled =
        Payments.put_schedule w.scheduled { rec0 with next_run_at := some now } ∧
      Payments.get_schedule
        (Payments.handle_scheduled_payments_callback true uid cid now uuid jh fm cm
          (Payments.PayCallback.runnow id) w).1.scheduled id =
        some { rec0 with next_run_at := some now } ∧
      (Payments.handle_scheduled_payments_callback true uid cid now uuid jh fm cm
          (Payments.PayCallback.runnow id) w).1.pending = w.pending ∧
      (Payments.handle_scheduled_payments_callback true uid cid now uuid jh fm cm
          (Payments.PayCallback.runnow id) w).2 =
        [Effect.notice "⚡ Queued to run"] := by
  intro uid cid now fm cm uuid jh id w rec0 h hid hc
  simp only [Payments.get_schedule] at h
  refine ⟨?_, ?_, ?_, ?_⟩
  · simp [Payments.handle_scheduled_payments_callback, Payments.get_schedule, h, hc,
      Payments.put_schedule]
  · simp [Payments.handle_scheduled_payments_callback, Payments.get_schedule, h, hc,
      Payments.put_schedule, hid, alistGet_alistPut_self]
  · simp [Payments.handle_scheduled_payments_callback, Payments.get_schedule, h, hc]
  · simp [Payments.handle_scheduled_payments_callback, Payments.get_schedule, h, hc]

/-- A payments world holding one record of creator 1, with a live job
handle and a future `next_run_at`. -/
def runnowWorld : Payments.PaymentsWorld :=
  ⟨[("p1", { sampleQuotaPaymentRec 0 with
              id := "p1"
              next_run_at := some 5000
              scheduler_job_id := some "job-1" })], []⟩

/-- Witness for C8: creator 1 presses run-now at time 42; only
`next_run_at` changes and the only effect is the notice. -/
theorem C8_runnow_sets_next_run_at_only_witness :
    Payments.get_schedule
      (Payments.handle_scheduled_payments_callback true 1 9 42 "u" "j" 5 6
        (Payments.PayCallback.runnow "p1") runnowWorld).1.scheduled "p1" =
      some { sampleQuotaPaymentRec 0 with
              id := "p1"
              next_run_at := some 42
              scheduler_job_id := some "job-1" } ∧
    (Payments.handle_scheduled_payments_callback true 1 9 42 "u" "j" 5 6
        (Payments.PayCallback.runnow "p1") runnowWorld).2 =
      [Effect.notice "⚡ Queued to run"] :=
  ⟨(C8_runnow_sets_next_run_at_only 1 9 42 5 6 "u" "j" "p1" runnowWorld
      { sampleQuotaPaymentRec 0 with
        id := "p1"
        next_run_at := some 5000
        scheduler_job_id := some "job-1" }
      (by decide) (by decide) (by decide)).2.1,
   (C8_runnow_sets_next_run_at_only 1 9 42 5 6 "u" "j" "p1" runnowWorld
      { sampleQuotaPaymentRec 0 with
        id := "p1"
        next_run_at := some 5000
        scheduler_job_id := some "job-1" }
      (by decide) (by decide) (by decide)).2.2.2⟩

/-- C9: if the collected date/hour/minute fields do not parse as a
`%Y-%m-%d %H:%M` datetime (e.g. the date field is absent), confirming
the payment wizard is not rejected — the created record is persisted
with both `start_timestamp_utc` and `next_run_at` silently set to the
current time, and the success path (register + success message) runs. -/
theorem C9_finalize_payment_falls_back_to_now :
    ∀ (now : Int) (uuid jh : String) (w : Payments.PaymentsWorld)
      (st : Payments.PendingPaymentWizardState),
      (Payments.list_schedules_for_group w.scheduled st.group_id).length < 50 →
      parse_datetime_ymd_hm (st.date.getD "" ++ " " ++ fmt2 (st.hour_utc.getD 0) ++
        ":" ++ fmt2 (st.minute_utc.getD 0)) = none →
      (∃ r, Payments.get_schedule
          (Payments.finalize_and_register_payment now uuid jh w st).1.scheduled
          (st.schedule_id.getD uuid) = some r ∧
        r.start_timestamp_utc = some now ∧ r.next_run_at = some now) ∧
      (Payments.finalize_and_register_payment now uuid jh w st).2 =
        [Effect.registerJob jh, Effect.sendMessage "✅ Scheduled payment created!"] := by
  intro now uuid jh w st hq hp
  have hq' : ¬ (50 ≤ (Payments.list_schedules_for_group w.scheduled st.group_id).length) := by
    omega
  constructor
  · refine ⟨{ id := st.schedule_id.getD uuid
              group_id := st.group_id
              creator_user_id := st.creator_user_id
              creator_username := st.creator_username
              recipient_username := st.recipient_username
              recipient_address := st.recipient_address
              symbol := st.symbol
              token_type := st.token_type
              decimals := st.decimals
              amount_smallest_units := st.amount_display.bind (fun amt =>
                st.decimals.map (fun d => ratToU64 (amt * (10 : Rat) ^ d)))
              start_timestamp_utc := some now
              repeat_ := st.repeat_.getD RepeatPolicy.Weekly
              weekly_weeks := st.weekly_weeks
              active := true
              created_at := now
              last_run_at := none
              next_run_at := some now
              run_count := 0
              locked_until := none
              scheduler_job_id := some jh
              last_error := none
              last_attempt_status := none
              notify_on_success := true
              notify_on_failure := true }, ?_, rfl, rfl⟩
    simp [Payments.finalize_and_register_payment, hq', hp,
      Payments.register_schedule, Payments.put_schedule, Payments.get_schedule,
      alistGet_alistPut_self]
  · simp [Payments.finalize_and_register_payment, hq', hp, Payments.register_schedule]

/-- An empty payments world. -/
def emptyPaymentsWorld : Payments.PaymentsWorld := ⟨[], []⟩

/-- Witness for C9: confirming a payment wizard state whose date field
was never collected (`date = none`, so the formatted datetime is
`" 08:30"`, which does not parse) still creates the record, with both
timestamps equal to the current time 42. -/
theorem C9_finalize_payment_falls_back_to_now_witness :
    (Payments.list_schedules_for_group emptyPaymentsWorld.scheduled
        cancelPaymentState.group_id).length < 50 ∧
    parse_datetime_ymd_hm (cancelPaymentState.date.getD "" ++ " " ++
      fmt2 (cancelPaymentState.hour_utc.getD 0) ++ ":" ++
      fmt2 (cancelPaymentState.minute_utc.getD 0)) = none ∧
    (∃ r, Payments.get_schedule
        (Payments.finalize_and_register_payment 42 "id-1" "job-1"
          emptyPaymentsWorld cancelPaymentState).1.scheduled
        (cancelPaymentState.schedule_id.getD "id-1") = some r ∧
      r.start_timestamp_utc = some 42 ∧ r.next_run_at = some 42) :=
  ⟨by decide, by decide,
   (C9_finalize_payment_falls_back_to_now 42 "id-1" "job-1"
      emptyPaymentsWorld cancelPaymentState (by decide) (by decide)).1⟩

/-- A free-form payment-wizard input that fails validation at the
session's current step: an unknown recipient username, an amount that
does not parse as a positive number, or a date that does not parse as
a `YYYY-MM-DD` calendar date. -/
def Payments.invalidWizardInput (creds : String → Option String)
    (st : Payments.PendingPaymentWizardState) (text_raw : String) : Prop :=
  (st.step = Payments.PendingPaymentStep.AwaitingRecipient ∧
    creds (stripLeadingAts text_raw) = none) ∨
  (st.step = Payments.PendingPaymentStep.AwaitingAmount ∧
    (match parse_decimal (removeChar ',' (removeChar '_' text_raw)) with
     | some v => v ≤ 0
     | none => True)) ∨
  (st.step = Payments.PendingPaymentStep.AwaitingDate ∧
    parse_date_ymd text_raw = none)

/-- C4: on any free-form wizard input that fails validation (malformed
or unknown recipient, non-positive or unparsable amount, invalid
date), the payment message handler sends exactly one error message and
leaves the whole world — in particular the persisted
PendingWizardState, its `step` and all collected fields — unchanged. -/
theorem C4_invalid_input_reprompts_without_advancing :
    ∀ (creds : String → Option String)
      (panora : String → Option (String × Nat × String))
      (fm cid uid mid : Int) (text : String)
      (w : Payments.PaymentsWorld) (st : Payments.PendingPaymentWizardState),
      Payments.get_pending w.pending (cid, uid) = some st →
      strIsEmpty (trimStr text) = false →
      startsWithChar (trimStr text) '/' = false →
      Payments.invalidWizardInput creds st (trimStr text) →
      (Payments.handle_message_scheduled_payments creds panora fm cid uid mid
          text w).1 = w ∧
      (Payments.handle_message_scheduled_payments creds panora fm cid uid mid
          text w).2.2 = true ∧
      (∃ e, (Payments.handle_message_scheduled_payments creds panora fm cid uid mid
          text w).2.1 = [Effect.sendMessage e]) := by
  intro creds panora fm cid uid mid text w st h hemp hslash hinv
  simp only [Payments.get_pending] at h
  rcases hinv with ⟨hs, hc⟩ | ⟨hs, hv⟩ | ⟨hs, hd⟩
  · refine ⟨?_, ?_, ?_⟩ <;>
      simp [Payments.handle_message_scheduled_payments, Payments.get_pending, h,
        hemp, hslash, hs, hc]
  · rcases hp : parse_decimal (removeChar ',' (removeChar '_' (trimStr text))) with _ | v
    · refine ⟨?_, ?_, ?_⟩ <;>
        simp [Payments.handle_message_scheduled_payments, Payments.get_pending, h,
          hemp, hslash, hs, hp]
    · rw [hp] at hv
      simp only at hv
      refine ⟨?_, ?_, ?_⟩ <;>
        simp [Payments.handle_message_scheduled_payments, Payments.get_pending, h,
          hemp, hslash, hs, hp, not_lt.mpr hv]
  · refine ⟨?_, ?_, ?_⟩ <;>
      simp [Payments.handle_message_scheduled_payments, Payments.get_pending, h,
        hemp, hslash, hs, hd]

/-- Witness for C4: user 1's session is awaiting a date and receives
`"not-a-date"`; the whole world is unchanged and the handler reports
the input as handled. -/
theorem C4_invalid_input_reprompts_without_advancing_witness :
    (Payments.handle_message_scheduled_payments (fun _ => none) (fun _ => none)
        5 100 1 6 "not-a-date" cancelPaymentsWorld).1 = cancelPaymentsWorld ∧
    (Payments.handle_message_scheduled_payments (fun _ => none) (fun _ => none)
        5 100 1 6 "not-a-date" cancelPaymentsWorld).2.2 = true :=
  have happ := C4_invalid_input_reprompts_without_advancing
    (fun _ => none) (fun _ => none) 5 100 1 6 "not-a-date"
    cancelPaymentsWorld cancelPaymentState (by decide) (by decide) (by decide)
    (Or.inr (Or.inr ⟨by decide, by decide⟩))
  ⟨happ.1, happ.2.1⟩

/-- Position of a payment wizard step in the step order. -/
def Payments.stepIdx : Payments.PendingPaymentStep → Nat
  | .AwaitingRecipient => 0
  | .AwaitingToken => 1
  | .AwaitingAmount => 2
  | .AwaitingDate => 3
  | .AwaitingHour => 4
  | .AwaitingMinute => 5
  | .AwaitingRepeat => 6
  | .AwaitingConfirm => 7

/-- Every collected payment field belonging to a step of index ≥ `i`
is cleared. -/
def Payments.clearedFrom (st : Payments.PendingPaymentWizardState) (i : Nat) : Prop :=
  (i ≤ 0 → st.recipient_username = none ∧ st.recipient_address = none) ∧
  (i ≤ 1 → st.symbol = none ∧ st.token_type = none ∧ st.decimals = none) ∧
  (i ≤ 2 → st.amount_display = none) ∧
  (i ≤ 3 → st.date = none) ∧
  (i ≤ 4 → st.hour_utc = none) ∧
  (i ≤ 5 → st.minute_utc = none) ∧
  (i ≤ 6 → st.repeat_ = none ∧ st.weekly_weeks = none)

/-- Every collected payment field belonging to a step of index < `i`
agrees between the two states. -/
def Payments.agreesBelow (a b : Payments.PendingPaymentWizardState) (i : Nat) : Prop :=
  (0 < i → a.recipient_username = b.recipient_username ∧
    a.recipient_address = b.recipient_address) ∧
  (1 < i → a.symbol = b.symbol ∧ a.token_type = b.token_type ∧
    a.decimals = b.decimals) ∧
  (2 < i → a.amount_display = b.amount_display) ∧
  (3 < i → a.date = b.date) ∧
  (4 < i → a.hour_utc = b.hour_utc) ∧
  (5 < i → a.minute_utc = b.minute_utc) ∧
  (6 < i → a.repeat_ = b.repeat_ ∧ a.weekly_weeks = b.weekly_weeks)

/-- Position of a prompt wizard step in the step order. -/
def Prompts.stepIdx : Prompts.PendingStep → Nat
  | .AwaitingPrompt => 0
  | .AwaitingImage => 1
  | .AwaitingHour => 2
  | .AwaitingMinute => 3
  | .AwaitingRepeat => 4
  | .AwaitingConfirm => 5

/-- Every collected prompt field belonging to a step of index ≥ `i`
is cleared. -/
def Prompts.clearedFrom (st : Prompts.PendingWizardState) (i : Nat) : Prop :=
  (i ≤ 0 → st.prompt = none) ∧
  (i ≤ 1 → st.image_url = none) ∧
  (i ≤ 2 → st.hour_utc = none) ∧
  (i ≤ 3 → st.minute_utc = none) ∧
  (i ≤ 4 → st.repeat_ = none)

/-- Every collected prompt field belonging to a step of index < `i`
agrees between the two states. -/
def Prompts.agreesBelow (a b : Prompts.PendingWizardState) (i : Nat) : Prop :=
  (0 < i → a.prompt = b.prompt) ∧
  (1 < i → a.image_url = b.image_url) ∧
  (2 < i → a.hour_utc = b.hour_utc) ∧
  (3 < i → a.minute_utc = b.minute_utc) ∧
  (4 < i → a.repeat_ = b.repeat_)

/-- C6: pressing Back at a step with a predecessor moves `step` to
that predecessor and stores a state in which every field belonging to
the current step or later is cleared, while every field belonging to a
step strictly before the new (predecessor) step is preserved; pressing
Back at the first step changes nothing and answers with a notice.
Both engines. -/
theorem C6_back_moves_to_predecessor_and_clears :
    (∀ (uid cid now fm cm : Int) (uuid jh : String)
        (w : Payments.PaymentsWorld) (st : Payments.PendingPaymentWizardState)
        (prev : Payments.PendingPaymentStep),
      Payments.get_pending w.pending (cid, uid) = some st →
      Payments.prevPaymentStep st.step = some prev →
      ∃ st', Payments.get_pending
          (Payments.handle_scheduled_payments_callback true uid cid now uuid jh fm cm
            Payments.PayCallback.back w).1.pending (cid, uid) = some st' ∧
        st'.step = prev ∧
        Payments.clearedFrom st' (Payments.stepIdx st.step) ∧
        Payments.agreesBelow st st' (Payments.stepIdx prev)) ∧
    (∀ (uid cid now fm cm : Int) (uuid jh : String)
        (w : Payments.PaymentsWorld) (st : Payments.PendingPaymentWizardState),
      Payments.get_pending w.pending (cid, uid) = some st →
      Payments.prevPaymentStep st.step = none →
      (Payments.handle_scheduled_payments_callback true uid cid now uuid jh fm cm
          Payments.PayCallback.back w).1 = w ∧
      (Payments.handle_scheduled_payments_callback true uid cid now uuid jh fm cm
          Payments.PayCallback.back w).2 =
        [Effect.notice "ℹ️ Already at first step"]) ∧
    (∀ (uid cid now fm cm : Int) (uuid jh : String)
        (w : Prompts.PromptsWorld) (st : Prompts.PendingWizardState)
        (prev : Prompts.PendingStep),
      Prompts.get_pending w.pending (cid, uid) = some st →
      Prompts.prevPromptStep st.step = some prev →
      ∃ st', Prompts.get_pending
          (Prompts.handle_scheduled_prompts_callback true uid cid now uuid jh fm cm
            Prompts.PromptCallback.back w).1.pending (cid, uid) = some st' ∧
        st'.step = prev ∧
        Prompts.clearedFrom st' (Prompts.stepIdx st.step) ∧
        Prompts.agreesBelow st st' (Prompts.stepIdx prev)) ∧
    (∀ (uid cid now fm cm : Int) (uuid jh : String)
        (w : Prompts.PromptsWorld) (st : Prompts.PendingWizardState),
      Prompts.get_pending w.pending (cid, uid) = some st →
      Prompts.prevPromptStep st.step = none →
      (Prompts.handle_scheduled_prompts_callback true uid cid now uuid jh fm cm
          Prompts.PromptCallback.back w).1 = w ∧
      (Prompts.handle_scheduled_prompts_callback true uid cid now uuid jh fm cm
          Prompts.PromptCallback.back w).2 =
        [Effect.notice "ℹ️ Already at first step"]) := by
  refine ⟨?_, ?_, ?_, ?_⟩
  · intro uid cid now fm cm uuid jh w st prev h hprev
    simp only [Payments.get_pending] at h
    refine ⟨{ Payments.reset_from_step_payments st prev with
              step := prev, current_bot_message_id := some fm }, ?_, rfl, ?_, ?_⟩
    · simp [Payments.handle_scheduled_payments_callback, Payments.get_pending, h,
        hprev, Payments.put_pending, alistGet_alistPut_self]
    · cases hstep : st.step <;> rw [hstep] at hprev <;>
        simp only [Payments.prevPaymentStep, Option.some.injEq] at hprev <;>
        first
          | (exact absurd hprev (by simp))
          | (subst hprev;
             simp [Payments.clearedFrom, Payments.reset_from_step_payments,
               Payments.stepIdx, hstep])
    · cases hstep : st.step <;> rw [hstep] at hprev <;>
        simp only [Payments.prevPaymentStep, Option.some.injEq] at hprev <;>
        first
          | (exact absurd hprev (by simp))
          | (subst hprev;
             simp [Payments.agreesBelow, Payments.reset_from_step_payments,
               Payments.stepIdx])
  · intro uid cid now fm cm uuid jh w st h hprev
    simp only [Payments.get_pending] at h
    constructor <;>
      simp [Payments.handle_scheduled_payments_callback, Payments.get_pending, h, hprev]
  · intro uid cid now fm cm uuid jh w st prev h hprev
    simp only [Prompts.get_pending] at h
    refine ⟨{ Prompts.reset_from_step_prompts st prev with
              step := prev, current_bot_message_id := some fm }, ?_, rfl, ?_, ?_⟩
    · simp [Prompts.handle_scheduled_prompts_callback, Prompts.get_pending, h,
        hprev, Prompts.put_pending, alistGet_alistPut_self]
    · cases hstep : st.step <;> rw [hstep] at hprev <;>
        simp only [Prompts.prevPromptStep, Option.some.injEq] at hprev <;>
        first
          | (exact absurd hprev (by simp))
          | (subst hprev;
             simp [Prompts.clearedFrom, Prompts.reset_from_step_prompts,
               Prompts.stepIdx, hstep])
    · cases hstep : st.step <;> rw [hstep] at hprev <;>
        simp only [Prompts.prevPromptStep, Option.some.injEq] at hprev <;>
        first
          | (exact absurd hprev (by simp))
          | (subst hprev;
             simp [Prompts.agreesBelow, Prompts.reset_from_step_prompts,
               Prompts.stepIdx])
  · intro uid cid now fm cm uuid jh w st h hprev
    simp only [Prompts.get_pending] at h
    constructor <;>
      simp [Prompts.handle_scheduled_prompts_callback, Prompts.get_pending, h, hprev]

/-- A prompts world whose pending session sits at the first step. -/
def backPromptsWorld : Prompts.PromptsWorld :=
  ⟨[], [((100, 1), { cancelPromptState with
                     step := Prompts.PendingStep.AwaitingPrompt })]⟩

/-- Witness for C6: Back pressed at the payment date step lands on the
amount step with amount/date/time/repeat cleared and recipient/token
kept; Back pressed at the first prompt step changes nothing. -/
theorem C6_back_moves_to_predecessor_and_clears_witness :
    (∃ st', Payments.get_pending
        (Payments.handle_scheduled_payments_callback true 1 100 0 "u" "j" 5 6
          Payments.PayCallback.back cancelPaymentsWorld).1.pending (100, 1) = some st' ∧
      st'.step = Payments.PendingPaymentStep.AwaitingAmount ∧
      Payments.clearedFrom st'
        (Payments.stepIdx Payments.PendingPaymentStep.AwaitingDate) ∧
      Payments.agreesBelow cancelPaymentState st'
        (Payments.stepIdx Payments.PendingPaymentStep.AwaitingAmount)) ∧
    (Prompts.handle_scheduled_prompts_callback true 1 100 0 "u" "j" 5 6
        Prompts.PromptCallback.back backPromptsWorld).1 = backPromptsWorld :=
  ⟨C6_back_moves_to_predecessor_and_clears.1 1 100 0 5 6 "u" "j"
      cancelPaymentsWorld cancelPaymentState
      Payments.PendingPaymentStep.AwaitingAmount (by decide) (by decide),
   (C6_back_moves_to_predecessor_and_clears.2.2.2 1 100 0 5 6 "u" "j"
      backPromptsWorld
      { cancelPromptState with step := Prompts.PendingStep.AwaitingPrompt }
      (by decide) (by decide)).1⟩

/-- A message-kind schedule record created by user 1 in group 100. -/
def c1Rec : Prompts.ScheduledPromptRecord :=
  { sampleQuotaPromptRec 0 with id := "r1", group_id := 100 }

/-- A prompts world holding only `c1Rec`. -/
def c1World : Prompts.PromptsWorld := ⟨[("r1", c1Rec)], []⟩

/-- Counterexample to C1: admin user 2 — who is not the creator
(user 1) — presses the message-kind delete button
`sched_cancel:r1` in the record's group; the action is not rejected:
the persisted record is mutated (deactivated) and a success notice is
issued, because this branch checks only the group, never the
creator. -/
theorem C1_counterexample_noncreator_deletes_prompt :
    (2 : Int) ≠ c1Rec.creator_user_id ∧
    Prompts.get_schedule
      (Prompts.handle_scheduled_prompts_callback true 2 100 0 "u" "j" 5 6
        (Prompts.PromptCallback.cancelId "r1") c1World).1.scheduled "r1" =
      some { c1Rec with active := false } ∧
    (Prompts.handle_scheduled_prompts_callback true 2 100 0 "u" "j" 5 6
        (Prompts.PromptCallback.cancelId "r1") c1World).2 =
      [Effect.notice "✅ Cancelled", Effect.deleteMessage 6] := by
  decide

/-- C1 (amended): the payment-kind per-record actions
(`schedpay_toggle`, `schedpay_delete`, `schedpay_runnow`) reject a
non-creator invoker with a notice and leave the world unchanged; the
message-kind delete (`sched_cancel:<id>`) enforces no creator check —
it rejects only when the record belongs to a different group, and any
admin of the owning group deactivates the record. -/
theorem C1_amended_creator_checks :
    (∀ (uid cid now fm cm : Int) (uuid jh id : String)
        (w : Payments.PaymentsWorld) (rec0 : Payments.ScheduledPaymentRecord),
      Payments.get_schedule w.scheduled id = some rec0 →
      rec0.creator_user_id ≠ uid →
      (Payments.handle_scheduled_payments_callback true uid cid now uuid jh fm cm
          (Payments.PayCallback.toggle id) w).1 = w ∧
      (Payments.handle_scheduled_payments_callback true uid cid now uuid jh fm cm
          (Payments.PayCallback.toggle id) w).2 =
        [Effect.notice "❌ Only the creator can toggle this payment"]) ∧
    (∀ (uid cid now fm cm : Int) (uuid jh id : String)
        (w : Payments.PaymentsWorld) (rec0 : Payments.ScheduledPaymentRecord),
      Payments.get_schedule w.scheduled id = some rec0 →
      rec0.creator_user_id ≠ uid →
      (Payments.handle_scheduled_payments_callback true uid cid now uuid jh fm cm
          (Payments.PayCallback.delete id) w).1 = w ∧
      (Payments.handle_scheduled_payments_callback true uid cid now uuid jh fm cm
          (Payments.PayCallback.delete id) w).2 =
        [Effect.notice "❌ Only the creator can delete this payment"]) ∧
    (∀ (uid cid now fm cm : Int) (uuid jh id : String)
        (w : Payments.PaymentsWorld) (rec0 : Payments.ScheduledPaymentRecord),
      Payments.get_schedule w.scheduled id = some rec0 →
      rec0.creator_user_id ≠ uid →
      (Payments.handle_scheduled_payments_callback true uid cid now uuid jh fm cm
          (Payments.PayCallback.runnow id) w).1 = w ∧
      (Payments.handle_scheduled_payments_callback true uid cid now uuid jh fm cm
          (Payments.PayCallback.runnow id) w).2 =
        [Effect.notice "❌ Only the creator can run this payment"]) ∧
    (∀ (uid cid now fm cm : Int) (uuid jh id : String)
        (w : Prompts.PromptsWorld) (rec0 : Prompts.ScheduledPromptRecord),
      Prompts.get_schedule w.scheduled id = some rec0 →
      rec0.group_id ≠ cid →
      (Prompts.handle_scheduled_prompts_callback true uid cid now uuid jh fm cm
          (Prompts.PromptCallback.cancelId id) w).1 = w ∧
      (Prompts.handle_scheduled_prompts_callback true uid cid now uuid jh fm cm
          (Prompts.PromptCallback.cancelId id) w).2 =
        [Effect.notice "❌ Wrong group"]) ∧
    (∀ (uid cid now fm cm : Int) (uuid jh id : String)
        (w : Prompts.PromptsWorld) (rec0 : Prompts.ScheduledPromptRecord),
      Prompts.get_schedule w.scheduled id = some rec0 →
      rec0.id = id →
      rec0.group_id = cid →
      Prompts.get_schedule
        (Prompts.handle_scheduled_prompts_callback true uid cid now uuid jh fm cm
          (Prompts.PromptCallback.cancelId id) w).1.scheduled id =
        some { rec0 with active := false }) := by
  refine ⟨?_, ?_, ?_, ?_, ?_⟩
  · intro uid cid now fm cm uuid jh id w rec0 h hc
    simp only [Payments.get_schedule] at h
    constructor <;>
      simp [Payments.handle_scheduled_payments_callback, Payments.get_schedule, h, hc]
  · intro uid cid now fm cm uuid jh id w rec0 h hc
    simp only [Payments.get_schedule] at h
    constructor <;>
      simp [Payments.handle_scheduled_payments_callback, Payments.get_schedule, h, hc]
  · intro uid cid now fm cm uuid jh id w rec0 h hc
    simp only [Payments.get_schedule] at h
    constructor <;>
      simp [Payments.handle_scheduled_payments_callback, Payments.get_schedule, h, hc]
  · intro uid cid now fm cm uuid jh id w rec0 h hg
    simp only [Prompts.get_schedule] at h
    constructor <;>
      simp [Prompts.handle_scheduled_prompts_callback, Prompts.get_schedule, h, hg]
  · intro uid cid now fm cm uuid jh id w rec0 h hid hg
    simp only [Prompts.get_schedule] at h
    simp [Prompts.handle_scheduled_prompts_callback, Prompts.get_schedule, h, hg,
      Prompts.put_schedule, hid, alistGet_alistPut_self]

/-- A payments world holding one record of creator 1. -/
def c1PayWorld : Payments.PaymentsWorld :=
  ⟨[("p1", { sampleQuotaPaymentRec 0 with id := "p1" })], []⟩

/-- Witness for the amended C1: non-creator user 2's payment-kind
delete is rejected with no state change, while user 2 deactivates the
message-kind record of creator 1 through `sched_cancel`. -/
theorem C1_amended_creator_checks_witness :
    ((Payments.handle_scheduled_payments_callback true 2 9 0 "u" "j" 5 6
        (Payments.PayCallback.delete "p1") c1PayWorld).1 = c1PayWorld ∧
      (Payments.handle_scheduled_payments_callback true 2 9 0 "u" "j" 5 6
        (Payments.PayCallback.delete "p1") c1PayWorld).2 =
        [Effect.notice "❌ Only the creator can delete this payment"]) ∧
    Prompts.get_schedule
      (Prompts.handle_scheduled_prompts_callback true 2 100 0 "u" "j" 5 6
        (Prompts.PromptCallback.cancelId "r1") c1World).1.scheduled "r1" =
      some { c1Rec with active := false } :=
  ⟨C1_amended_creator_checks.2.1 2 9 0 5 6 "u" "j" "p1" c1PayWorld
      { sampleQuotaPaymentRec 0 with id := "p1" } (by decide) (by decide),
   C1_amended_creator_checks.2.2.2.2 2 100 0 5 6 "u" "j" "r1" c1World c1Rec
      (by decide) (by decide) (by decide)⟩

/-- A payment record of creator 1 with a live timer-job handle. -/
def c5Rec : Payments.ScheduledPaymentRecord :=
  { sampleQuotaPaymentRec 0 with id := "p1", scheduler_job_id := some "job-1" }

/-- A payments world holding only `c5Rec`. -/
def c5World : Payments.PaymentsWorld := ⟨[("p1", c5Rec)], []⟩

/-- Counterexample to C5: the creator deletes a record whose stored
job handle is `"job-1"`; the record is soft-deleted in place, but the
callback performs no cancellation of the live timer job — no
`cancelJob` operation appears among its effects. -/
theorem C5_counterexample_delete_never_cancels_job :
    c5Rec.scheduler_job_id = some "job-1" ∧
    Payments.get_schedule
      (Payments.handle_scheduled_payments_callback true 1 9 0 "u" "j" 5 6
        (Payments.PayCallback.delete "p1") c5World).1.scheduled "p1" =
      some { c5Rec with active := false } ∧
    Effect.cancelJob "job-1" ∉
      (Payments.handle_scheduled_payments_callback true 1 9 0 "u" "j" 5 6
        (Payments.PayCallback.delete "p1") c5World).2 := by
  decide

/-- C5 (amended): deleting a schedule record never removes it from the
Schedule Store — the record stays under its key with `active = false`
and every other field (including the stored job handle) unchanged —
but the delete action does not cancel the live timer job: no
`cancelJob` operation is ever emitted; the deactivated record's timer
is left to observe `active = false` when it next fires.  Both
engines. -/
theorem C5_amended_delete_soft_deletes_without_cancel :
    (∀ (uid cid now fm cm : Int) (uuid jh id : String)
        (w : Payments.PaymentsWorld) (rec0 : Payments.ScheduledPaymentRecord),
      Payments.get_schedule w.scheduled id = some rec0 →
      rec0.id = id →
      rec0.creator_user_id = uid →
      Payments.get_schedule
        (Payments.handle_scheduled_payments_callback true uid cid now uuid jh fm cm
          (Payments.PayCallback.delete id) w).1.scheduled id =
        some { rec0 with active := false } ∧
      (∀ s, Effect.cancelJob s ∉
        (Payments.handle_scheduled_payments_callback true uid cid now uuid jh fm cm
          (Payments.PayCallback.delete id) w).2)) ∧
    (∀ (uid cid now fm cm : Int) (uuid jh id : String)
        (w : Prompts.PromptsWorld) (rec0 : Prompts.ScheduledPromptRecord),
      Prompts.get_schedule w.scheduled id = some rec0 →
      rec0.id = id →
      rec0.group_id = cid →
      Prompts.get_schedule
        (Prompts.handle_scheduled_prompts_callback true uid cid now uuid jh fm cm
          (Prompts.PromptCallback.cancelId id) w).1.scheduled id =
        some { rec0 with active := false } ∧
      (∀ s, Effect.cancelJob s ∉
        (Prompts.handle_scheduled_prompts_callback true uid cid now uuid jh fm cm
          (Prompts.PromptCallback.cancelId id) w).2)) := by
  constructor
  · intro uid cid now fm cm uuid jh id w rec0 h hid hc
    simp only [Payments.get_schedule] at h
    constructor
    · simp [Payments.handle_scheduled_payments_callback, Payments.get_schedule, h,
        hc, Payments.put_schedule, hid, alistGet_alistPut_self]
    · intro s
      simp [Payments.handle_scheduled_payments_callback, Payments.get_schedule, h, hc]
  · intro uid cid now fm cm uuid jh id w rec0 h hid hg
    simp only [Prompts.get_schedule] at h
    constructor
    · simp [Prompts.handle_scheduled_prompts_callback, Prompts.get_schedule, h,
        hg, Prompts.put_schedule, hid, alistGet_alistPut_self]
    · intro s
      simp [Prompts.handle_scheduled_prompts_callback, Prompts.get_schedule, h, hg]

/-- Witness for the amended C5: the creator's delete of `c5Rec` leaves
it stored (inactive, handle untouched) and cancels nothing; same for a
message-kind record deleted in its group. -/
theorem C5_amended_delete_soft_deletes_without_cancel_witness :
    (Payments.get_schedule
        (Payments.handle_scheduled_payments_callback true 1 9 0 "u" "j" 5 6
          (Payments.PayCallback.delete "p1") c5World).1.scheduled "p1" =
      some { c5Rec with active := false } ∧
      (∀ s, Effect.cancelJob s ∉
        (Payments.handle_scheduled_payments_callback true 1 9 0 "u" "j" 5 6
          (Payments.PayCallback.delete "p1") c5World).2)) ∧
    Prompts.get_schedule
      (Prompts.handle_scheduled_prompts_callback true 1 100 0 "u" "j" 5 6
        (Prompts.PromptCallback.cancelId "r1") c1World).1.scheduled "r1" =
      some { c1Rec with active := false } :=
  ⟨C5_amended_delete_soft_deletes_without_cancel.1 1 9 0 5 6 "u" "j" "p1"
      c5World c5Rec (by decide) (by decide) (by decide),
   (C5_amended_delete_soft_deletes_without_cancel.2 1 100 0 5 6 "u" "j" "r1"
      c1World c1Rec (by decide) (by decide) (by decide)).1⟩

end Nova
